import Mathlib

/-!
Verification of the SAP Logistics action-group Lambda (Logistics-System.py).

The Python module is embedded shallowly: JSON/Python values become the
inductive type Json, dicts become association lists with first-match
lookup, raised exceptions become an Except monad over the exception kinds
the module distinguishes, and the boto3/DynamoDB collaborator is modelled
by a DbBehavior value describing its observable behaviour during the one
query the handler performs.
-/

/-- JSON-shaped Python values as they flow through the handler. -/
inductive Json where
  | null
  | bool (b : Bool)
  | num (n : Int)
  | str (s : String)
  | arr (xs : List Json)
  | obj (kvs : List (String × Json))

/-- A Python dict with string keys, as an association list. -/
abbrev PyDict := List (String × Json)

/-- Dict lookup, d.get(key): first matching key wins. -/
def dictGet : PyDict → String → Option Json
  | [], _ => none
  | (k, v) :: rest, key => if k = key then some v else dictGet rest key

/-- Dict lookup with default, d.get(key, default). -/
def dictGetD (d : PyDict) (key : String) (dflt : Json) : Json :=
  (dictGet d key).getD dflt

/-- Python truthiness of a JSON-shaped value (bool(x)). -/
def Json.truthy : Json → Bool
  | .null => false
  | .bool b => b
  | .num n => n != 0
  | .str s => !s.isEmpty
  | .arr xs => !xs.isEmpty
  | .obj kvs => !kvs.isEmpty

/-- isinstance(x, str). -/
def Json.isStr : Json → Bool
  | .str _ => true
  | _ => false

/-- Python `x == "t"` where t is a string: only str values can be equal. -/
def Json.eqStr : Json → String → Bool
  | .str s, t => s == t
  | _, _ => false

/-- Python `x == "t"` where x may be None (a missing dict entry). -/
def optEqStr : Option Json → String → Bool
  | some j, t => j.eqStr t
  | none, _ => false

/-- Truthiness of an optional value: None is falsy. -/
def optTruthy : Option Json → Bool
  | none => false
  | some j => j.truthy

/-- Escaping of one character inside a JSON string literal (json.dumps). -/
def jsonEscapeChar (c : Char) : String :=
  if c = '\\' then "\\\\"
  else if c = '"' then "\\\""
  else if c = '\n' then "\\n"
  else if c = '\t' then "\\t"
  else if c = '\r' then "\\r"
  else String.singleton c

/-- Escaping of a string for json.dumps output. -/
def jsonEscape (s : String) : String :=
  String.join (s.toList.map jsonEscapeChar)

mutual

/-- json.dumps with the default separators (", " between items, ": " after keys). -/
def Json.dumps : Json → String
  | .null => "null"
  | .bool true => "true"
  | .bool false => "false"
  | .num n => toString n
  | .str s => "\"" ++ jsonEscape s ++ "\""
  | .arr xs => "[" ++ Json.dumpsList xs ++ "]"
  | .obj kvs => "\x7b" ++ Json.dumpsPairs kvs ++ "\x7d"

/-- Array elements of json.dumps output. -/
def Json.dumpsList : List Json → String
  | [] => ""
  | [x] => Json.dumps x
  | x :: y :: xs => Json.dumps x ++ ", " ++ Json.dumpsList (y :: xs)

/-- Object entries of json.dumps output. -/
def Json.dumpsPairs : List (String × Json) → String
  | [] => ""
  | [(k, v)] => "\"" ++ jsonEscape k ++ "\": " ++ Json.dumps v
  | (k, v) :: p :: xs =>
      "\"" ++ jsonEscape k ++ "\": " ++ Json.dumps v ++ ", " ++ Json.dumpsPairs (p :: xs)

end

mutual

/-- Python repr() of a JSON-shaped value, as used when a container is
interpolated into an f-string (quote escaping inside strings is not
modelled; no claim exercises it). -/
def pyRepr : Json → String
  | .null => "None"
  | .bool true => "True"
  | .bool false => "False"
  | .num n => toString n
  | .str s => "\x27" ++ s ++ "\x27"
  | .arr xs => "[" ++ pyReprList xs ++ "]"
  | .obj kvs => "\x7b" ++ pyReprPairs kvs ++ "\x7d"

/-- List elements of pyRepr. -/
def pyReprList : List Json → String
  | [] => ""
  | [x] => pyRepr x
  | x :: y :: xs => pyRepr x ++ ", " ++ pyReprList (y :: xs)

/-- Dict entries of pyRepr. -/
def pyReprPairs : List (String × Json) → String
  | [] => ""
  | [(k, v)] => "\x27" ++ k ++ "\x27: " ++ pyRepr v
  | (k, v) :: p :: xs => "\x27" ++ k ++ "\x27: " ++ pyRepr v ++ ", " ++ pyReprPairs (p :: xs)

end

/-- Python str() of a JSON-shaped value, as used by f-string interpolation. -/
def pyStr : Json → String
  | .str s => s
  | j => pyRepr j

/-- The exception kinds the module distinguishes: ValueError,
LogisticsQueryError (the custom class), botocore ClientError, and any
other Exception. The carried string is str(e). -/
inductive PyError where
  | valueError (message : String)
  | logisticsQueryError (message : String)
  | clientError (message : String)
  | otherError (message : String)

/-- str(e) of an exception. -/
def PyError.msg : PyError → String
  | .valueError m => m
  | .logisticsQueryError m => m
  | .clientError m => m
  | .otherError m => m

/-- Observable behaviour of the boto3/DynamoDB collaborator during the
single query one invocation performs: a ClientError or unexpected
exception while acquiring the table handle, a ClientError or unexpected
exception while querying, or a returned response dict. The carried
string is the error message the storage layer reports. -/
inductive DbBehavior where
  | initClientError (message : String)
  | initOtherError (message : String)
  | queryClientError (message : String)
  | queryOtherError (message : String)
  | returns (response : PyDict)

/-- setup_dynamodb_table: acquires the table handle, wrapping a storage
ClientError into LogisticsQueryError with the storage message, and any
other failure into a fixed LogisticsQueryError message. -/
def setup_dynamodb_table (db : DbBehavior) : Except PyError Unit :=
  match db with
  | .initClientError message =>
      .error (.logisticsQueryError ("Database initialization error: " ++ message))
  | .initOtherError _ =>
      .error (.logisticsQueryError "Failed to initialize database connection")
  | _ => .ok ()

/-- The try-block of query_logistic_db: validate the sales id, acquire
the table, run the query, and require an Items key in the response.
A missing Items key raises LogisticsQueryError inside the same try. -/
def query_try_block (sales_id : Json) (db : DbBehavior) : Except PyError PyDict :=
  if !(sales_id.truthy && sales_id.isStr) then
    .error (.valueError "Invalid sales ID provided")
  else
    match setup_dynamodb_table db with
    | .error e => .error e
    | .ok () =>
      match db with
      | .queryClientError message => .error (.clientError message)
      | .queryOtherError message => .error (.otherError message)
      | .returns response =>
          if (dictGet response "Items").isSome then .ok response
          else .error (.logisticsQueryError "Invalid response format from database")
      -- init failures were already returned by setup_dynamodb_table above
      | _ => .error (.otherError "unreachable")

/-- query_logistic_db: the try-block above, with the except clauses in
source order. ClientError is rewrapped with a Database-query-error
message, ValueError is re-raised as is, and every other exception —
including the LogisticsQueryError raised inside the try for a malformed
response — is rewrapped with a Failed-to-query prefix around str(e). -/
def query_logistic_db (sales_id : Json) (db : DbBehavior) : Except PyError PyDict :=
  match query_try_block sales_id db with
  | .ok response => .ok response
  | .error (.clientError message) =>
      .error (.logisticsQueryError ("Database query error: " ++ message))
  | .error (.valueError message) => .error (.valueError message)
  | .error e => .error (.logisticsQueryError ("Failed to query logistics data: " ++ e.msg))

/-- The loop of validate_event over the required field names: the first
absent field raises ValueError naming it. -/
def check_required_fields (event : PyDict) : List String → Except PyError Unit
  | [] => .ok ()
  | f :: rest =>
      if (dictGet event f).isSome then check_required_fields event rest
      else .error (.valueError ("Missing required field: " ++ f))

/-- validate_event: requires apiPath, actionGroup and httpMethod, in
that order. -/
def validate_event (event : PyDict) : Except PyError Unit :=
  check_required_fields event ["apiPath", "actionGroup", "httpMethod"]

/-- create_error_response: the fixed error envelope. The Python
signature declares a default status of 400; every call site passes the
status explicitly. -/
def create_error_response (error_message : String) (status_code : Int) : Json :=
  Json.obj [
    ("messageVersion", Json.str "1.0"),
    ("response", Json.obj [
      ("actionGroup", Json.str "unknown"),
      ("apiPath", Json.str "unknown"),
      ("httpMethod", Json.str "unknown"),
      ("httpStatusCode", Json.num status_code),
      ("responseBody", Json.obj [
        ("application/json", Json.obj [
          ("body", Json.str (Json.dumps (Json.obj [("error", Json.str error_message)])))])])])]

/-- The successful envelope built at the end of the handler try-block.
The event fields are read by plain indexing; validation has already
guaranteed their presence, so the default is never used. -/
def success_response (event : PyDict) (body : PyDict) : Json :=
  Json.obj [
    ("messageVersion", Json.str "1.0"),
    ("response", Json.obj [
      ("actionGroup", dictGetD event "actionGroup" Json.null),
      ("apiPath", dictGetD event "apiPath" Json.null),
      ("httpMethod", dictGetD event "httpMethod" Json.null),
      ("httpStatusCode", Json.num 200),
      ("responseBody", Json.obj [
        ("application/json", Json.obj [
          ("body", Json.str (Json.dumps (Json.obj body)))])])])]

/-- The parameter loop: the first entry whose name equals SalesOrderID
wins and its value (None when absent) is taken; a non-dict entry raises
AttributeError at the .get call. -/
def iter_params : List Json → Except PyError (Option Json)
  | [] => .ok none
  | Json.obj kvs :: rest =>
      if optEqStr (dictGet kvs "name") "SalesOrderID" then
        .ok (some (dictGetD kvs "value" Json.null))
      else iter_params rest
  | _ :: _ => .error (.otherError "AttributeError: object has no attribute get")

/-- Iterating event parameters of any shape: a list iterates its
elements; a string iterates characters and a dict iterates keys, so a
non-empty one raises AttributeError at the first .get call while an
empty one leaves sales_id as None; anything else raises TypeError. -/
def get_sales_id : Json → Except PyError (Option Json)
  | .arr ps => iter_params ps
  | .str s =>
      if s.isEmpty then .ok none
      else .error (.otherError "AttributeError: object has no attribute get")
  | .obj kvs =>
      if kvs.isEmpty then .ok none
      else .error (.otherError "AttributeError: object has no attribute get")
  | _ => .error (.otherError "TypeError: object is not iterable")

/-- The tail of the salesorder branch once a truthy sales id is in
hand: query the datastore and shape the success envelope. -/
def after_extract (event : PyDict) (sales_id : Json) (db : DbBehavior) : Except PyError Json :=
  match query_logistic_db sales_id db with
  | .error e => .error e
  | .ok body => .ok (success_response event body)

/-- The then-branch of the apiPath dispatch: extract the SalesOrderID
parameter (parameters defaults to an empty list), fail with ValueError
when it is missing or falsy, otherwise query and respond. -/
def salesorder_branch (event : PyDict) (db : DbBehavior) : Except PyError Json :=
  match get_sales_id (dictGetD event "parameters" (Json.arr [])) with
  | .error e => .error e
  | .ok sales_id =>
      if optTruthy sales_id then
        after_extract event (sales_id.getD Json.null) db
      else .error (.valueError "SalesOrderID parameter is missing or invalid")

/-- The try-block of lambda_handler: validate, dispatch on exact
apiPath equality, and either run the salesorder branch or raise
ValueError naming the invalid path. -/
def handler_body (event : PyDict) (db : DbBehavior) : Except PyError Json :=
  match validate_event event with
  | .error e => .error e
  | .ok () =>
      if (dictGetD event "apiPath" Json.null).eqStr "/salesorder/{SalesOrderID}" then
        salesorder_branch event db
      else
        .error (.valueError ("Invalid API path: " ++ pyStr (dictGetD event "apiPath" Json.null)))

/-- lambda_handler: the try-block with its except clauses in source
order — ValueError to a 400 with str(e), LogisticsQueryError to a 500
with str(e), any other exception to a generic 500. -/
def lambda_handler (event : PyDict) (db : DbBehavior) : Json :=
  match handler_body event db with
  | .ok result => result
  | .error (.valueError message) => create_error_response message 400
  | .error (.logisticsQueryError message) => create_error_response message 500
  | .error _ => create_error_response "Internal server error" 500

/-- Lookup of one key of a JSON object. -/
def Json.getKey : Json → String → Option Json
  | .obj kvs, k => dictGet kvs k
  | _, _ => none

/-- A field of the inner response object of an envelope. -/
def getResponseField (r : Json) (k : String) : Option Json :=
  (r.getKey "response").bind (fun resp => resp.getKey k)

/-- The httpStatusCode of an envelope. -/
def getStatus (r : Json) : Option Json :=
  getResponseField r "httpStatusCode"

/-- The serialized body string of an envelope. -/
def getBody (r : Json) : Option Json :=
  ((getResponseField r "responseBody").bind (fun b => b.getKey "application/json")).bind
    (fun b => b.getKey "body")

/-- The status is a number among 200, 400 and 500. -/
def statusOk : Option Json → Bool
  | some (Json.num c) => c == 200 || c == 400 || c == 500
  | _ => false

/-- The responseBody holds exactly one content-type key,
application/json, mapping to an object whose body is a string. -/
def singleJsonBody : Option Json → Bool
  | some (Json.obj [(ct, Json.obj [(bk, Json.str _)])]) =>
      ct == "application/json" && bk == "body"
  | _ => false

/-- A well-formed response envelope in the sense of the spec invariant:
messageVersion 1.0, status in the allowed set, and a single
application/json body holding a serialized string. -/
def wellFormedEnvelope (r : Json) : Bool :=
  (match r.getKey "messageVersion" with
   | some (Json.str v) => v == "1.0"
   | _ => false)
  && statusOk (getStatus r)
  && singleJsonBody (getResponseField r "responseBody")

/-- The first of the three required fields absent from the event, in
check order. -/
def firstMissingField (event : PyDict) : Option String :=
  ["apiPath", "actionGroup", "httpMethod"].find? (fun f => !(dictGet event f).isSome)

/-- Prefix test on character lists. -/
def isPrefixChars : List Char → List Char → Bool
  | [], _ => true
  | _ :: _, [] => false
  | a :: as, b :: bs => a == b && isPrefixChars as bs

/-- Substring occurrence test on character lists: the needle occurs at
some position of the haystack. -/
def containsChars : List Char → List Char → Bool
  | needle, [] => isPrefixChars needle []
  | needle, h :: hs => isPrefixChars needle (h :: hs) || containsChars needle hs

/-- Substring occurrence test on strings. -/
def strContains (hay needle : String) : Bool :=
  containsChars needle.toList hay.toList

def eventC3 : PyDict :=
  [("apiPath", Json.str "/salesorder/{SalesOrderID}"),
   ("actionGroup", Json.str "ag1"),
   ("httpMethod", Json.str "GET"),
   ("parameters", Json.arr [Json.obj [("name", Json.str "SalesOrderID"),
                                      ("value", Json.str "SO123")]])]

def recordC3 : Json :=
  Json.obj [("order_id", Json.str "SO123"), ("status", Json.str "shipped")]

def eventMissing : PyDict := [("actionGroup", Json.str "ag1")]

def eventBadPath : PyDict :=
  [("apiPath", Json.str "/salesorder/SO123"),
   ("actionGroup", Json.str "ag1"),
   ("httpMethod", Json.str "GET")]

def entrySO : PyDict := [("name", Json.str "SalesOrderID"), ("value", Json.str "SO9")]

def entryDecoy : PyDict := [("name", Json.str "SalesOrderID"), ("value", Json.str "OTHER")]

def eventTwoParams : PyDict :=
  [("apiPath", Json.str "/salesorder/{SalesOrderID}"),
   ("actionGroup", Json.str "ag1"),
   ("httpMethod", Json.str "GET"),
   ("parameters", Json.arr [Json.obj entrySO, Json.obj entryDecoy])]

def eventNoParams : PyDict :=
  [("apiPath", Json.str "/salesorder/{SalesOrderID}"),
   ("actionGroup", Json.str "ag1"),
   ("httpMethod", Json.str "GET")]

theorem Json.eqStr_iff (j : Json) (t : String) : j.eqStr t = true ↔ j = Json.str t := by
  cases j <;> simp [Json.eqStr]

theorem optEqStr_iff (o : Option Json) (t : String) :
    optEqStr o t = true ↔ o = some (Json.str t) := by
  cases o with
  | none => simp [optEqStr]
  | some j => simp [optEqStr, Json.eqStr_iff]

theorem optEqStr_eq_false_iff (o : Option Json) (t : String) :
    optEqStr o t = false ↔ o ≠ some (Json.str t) := by
  constructor
  · intro h hc
    rw [hc] at h
    simp [optEqStr, Json.eqStr] at h
  · intro h
    cases ho : optEqStr o t
    · rfl
    · exact absurd ((optEqStr_iff o t).mp ho) h

theorem check_required_eq (event : PyDict) (fields : List String) :
    check_required_fields event fields =
      (match fields.find? (fun f => !(dictGet event f).isSome) with
       | none => Except.ok ()
       | some f => Except.error (PyError.valueError ("Missing required field: " ++ f))) := by
  induction fields with
  | nil => rfl
  | cons f rest ih =>
      cases h : (dictGet event f).isSome <;> simp [check_required_fields, List.find?, h, ih]

theorem validate_event_eq (event : PyDict) :
    validate_event event =
      (match firstMissingField event with
       | none => Except.ok ()
       | some f => Except.error (PyError.valueError ("Missing required field: " ++ f))) := by
  unfold validate_event firstMissingField
  exact check_required_eq event _

theorem createError_status (m : String) (c : Int) :
    getStatus (create_error_response m c) = some (Json.num c) := rfl

theorem createError_actionGroup (m : String) (c : Int) :
    getResponseField (create_error_response m c) "actionGroup" = some (Json.str "unknown") := rfl

theorem createError_apiPath (m : String) (c : Int) :
    getResponseField (create_error_response m c) "apiPath" = some (Json.str "unknown") := rfl

theorem createError_httpMethod (m : String) (c : Int) :
    getResponseField (create_error_response m c) "httpMethod" = some (Json.str "unknown") := rfl

theorem createError_getBody (m : String) (c : Int) :
    getBody (create_error_response m c)
      = some (Json.str (Json.dumps (Json.obj [("error", Json.str m)]))) := rfl

theorem createError_wf400 (m : String) :
    wellFormedEnvelope (create_error_response m 400) = true := rfl

theorem createError_wf500 (m : String) :
    wellFormedEnvelope (create_error_response m 500) = true := rfl

theorem success_status (event : PyDict) (body : PyDict) :
    getStatus (success_response event body) = some (Json.num 200) := rfl

theorem success_getBody (event : PyDict) (body : PyDict) :
    getBody (success_response event body)
      = some (Json.str (Json.dumps (Json.obj body))) := rfl

theorem success_wf (event : PyDict) (body : PyDict) :
    wellFormedEnvelope (success_response event body) = true := rfl

theorem lambda_of_ok (event : PyDict) (db : DbBehavior) (r : Json)
    (h : handler_body event db = Except.ok r) : lambda_handler event db = r := by
  unfold lambda_handler; rw [h]

theorem lambda_of_valueError (event : PyDict) (db : DbBehavior) (m : String)
    (h : handler_body event db = Except.error (PyError.valueError m)) :
    lambda_handler event db = create_error_response m 400 := by
  unfold lambda_handler; rw [h]

theorem lambda_of_queryError (event : PyDict) (db : DbBehavior) (m : String)
    (h : handler_body event db = Except.error (PyError.logisticsQueryError m)) :
    lambda_handler event db = create_error_response m 500 := by
  unfold lambda_handler; rw [h]

theorem handler_body_routes (event : PyDict) (db : DbBehavior)
    (hv : firstMissingField event = none)
    (hp : dictGetD event "apiPath" Json.null = Json.str "/salesorder/{SalesOrderID}") :
    handler_body event db = salesorder_branch event db := by
  unfold handler_body
  rw [validate_event_eq event, hv, hp]
  rfl

theorem handler_body_bad_path (event : PyDict) (db : DbBehavior)
    (hv : firstMissingField event = none)
    (hp : dictGetD event "apiPath" Json.null ≠ Json.str "/salesorder/{SalesOrderID}") :
    handler_body event db
      = Except.error (PyError.valueError
          ("Invalid API path: " ++ pyStr (dictGetD event "apiPath" Json.null))) := by
  unfold handler_body
  rw [validate_event_eq event, hv]
  have he : (dictGetD event "apiPath" Json.null).eqStr "/salesorder/{SalesOrderID}" = false := by
    rw [← Bool.not_eq_true, Json.eqStr_iff]; exact hp
  simp [he]

theorem salesorder_branch_none (event : PyDict) (db : DbBehavior)
    (hsid : get_sales_id (dictGetD event "parameters" (Json.arr [])) = Except.ok none) :
    salesorder_branch event db
      = Except.error (PyError.valueError "SalesOrderID parameter is missing or invalid") := by
  unfold salesorder_branch
  rw [hsid]
  rfl

theorem salesorder_branch_falsy (event : PyDict) (db : DbBehavior) (v : Json)
    (hsid : get_sales_id (dictGetD event "parameters" (Json.arr [])) = Except.ok (some v))
    (hf : v.truthy = false) :
    salesorder_branch event db
      = Except.error (PyError.valueError "SalesOrderID parameter is missing or invalid") := by
  unfold salesorder_branch
  rw [hsid]
  simp [optTruthy, hf]

theorem salesorder_branch_truthy (event : PyDict) (db : DbBehavior) (v : Json)
    (hsid : get_sales_id (dictGetD event "parameters" (Json.arr [])) = Except.ok (some v))
    (ht : v.truthy = true) :
    salesorder_branch event db = after_extract event v db := by
  unfold salesorder_branch
  rw [hsid]
  simp [optTruthy, ht]

theorem str_truthy (s : String) (h : s.isEmpty = false) : (Json.str s).truthy = true := by
  simp [Json.truthy, h]

theorem query_of_queryClientError (sid : String) (h : sid.isEmpty = false) (m : String) :
    query_logistic_db (Json.str sid) (DbBehavior.queryClientError m)
      = Except.error (PyError.logisticsQueryError ("Database query error: " ++ m)) := by
  unfold query_logistic_db query_try_block
  simp [Json.truthy, Json.isStr, h, setup_dynamodb_table]

theorem query_of_returns_items (sid : String) (h : sid.isEmpty = false) (response : PyDict)
    (hI : (dictGet response "Items").isSome = true) :
    query_logistic_db (Json.str sid) (DbBehavior.returns response) = Except.ok response := by
  unfold query_logistic_db query_try_block
  simp [Json.truthy, Json.isStr, h, setup_dynamodb_table, hI]

theorem query_of_returns_no_items (sid : String) (h : sid.isEmpty = false) (response : PyDict)
    (hI : dictGet response "Items" = none) :
    query_logistic_db (Json.str sid) (DbBehavior.returns response)
      = Except.error (PyError.logisticsQueryError
          "Failed to query logistics data: Invalid response format from database") := by
  unfold query_logistic_db query_try_block
  simp [Json.truthy, Json.isStr, h, setup_dynamodb_table, hI, PyError.msg]

theorem iter_params_no_match (items : List PyDict)
    (h : ∀ kvs ∈ items, dictGet kvs "name" ≠ some (Json.str "SalesOrderID")) :
    iter_params (items.map Json.obj) = Except.ok none := by
  induction items with
  | nil => rfl
  | cons kvs rest ih =>
      have h0 : optEqStr (dictGet kvs "name") "SalesOrderID" = false :=
        (optEqStr_eq_false_iff _ _).mpr (h kvs (by simp))
      simp [iter_params, h0]
      exact ih (fun k hk => h k (by simp [hk]))

theorem iter_params_first_match (pre : List PyDict) (entry : PyDict) (rest : List PyDict)
    (hpre : ∀ kvs ∈ pre, dictGet kvs "name" ≠ some (Json.str "SalesOrderID"))
    (hentry : dictGet entry "name" = some (Json.str "SalesOrderID")) :
    iter_params ((pre ++ entry :: rest).map Json.obj)
      = Except.ok (some (dictGetD entry "value" Json.null)) := by
  induction pre with
  | nil =>
      have h1 : optEqStr (dictGet entry "name") "SalesOrderID" = true :=
        (optEqStr_iff _ _).mpr hentry
      simp [iter_params, h1]
  | cons kvs pre ih =>
      have h0 : optEqStr (dictGet kvs "name") "SalesOrderID" = false :=
        (optEqStr_eq_false_iff _ _).mpr (hpre kvs (by simp))
      simp only [List.cons_append, List.map_cons, iter_params, h0, Bool.false_eq_true,
        if_false]
      exact ih (fun k hk => hpre k (by simp [hk]))

theorem handler_body_ok_shape (event : PyDict) (db : DbBehavior) (r : Json)
    (h : handler_body event db = Except.ok r) :
    ∃ body, r = success_response event body := by
  unfold handler_body at h
  split at h
  · simp at h
  · split at h
    · unfold salesorder_branch at h
      split at h
      · simp at h
      · split at h
        · unfold after_extract at h
          split at h
          · simp at h
          · injection h with h
            exact ⟨_, h.symm⟩
        · simp at h
    · simp at h

theorem lambda_of_clientError (event : PyDict) (db : DbBehavior) (m : String)
    (h : handler_body event db = Except.error (PyError.clientError m)) :
    lambda_handler event db = create_error_response "Internal server error" 500 := by
  unfold lambda_handler; rw [h]

theorem lambda_of_otherError (event : PyDict) (db : DbBehavior) (m : String)
    (h : handler_body event db = Except.error (PyError.otherError m)) :
    lambda_handler event db = create_error_response "Internal server error" 500 := by
  unfold lambda_handler; rw [h]

/-- Claim C1: for every inbound event and every datastore behaviour the
handler returns normally (it is a total function in this embedding) and
the returned value is a well-formed envelope: messageVersion 1.0, a
status code among 200, 400 and 500, and a responseBody holding exactly
the one content-type key application/json mapping to a serialized
string. -/
theorem envelope_always_wellformed (event : PyDict) (db : DbBehavior) :
    wellFormedEnvelope (lambda_handler event db) = true := by
  cases h : handler_body event db with
  | ok r =>
      obtain ⟨body, rfl⟩ := handler_body_ok_shape event db r h
      rw [lambda_of_ok event db _ h]
      exact success_wf event body
  | error e =>
      cases e with
      | valueError m =>
          rw [lambda_of_valueError event db m h]; exact createError_wf400 m
      | logisticsQueryError m =>
          rw [lambda_of_queryError event db m h]; exact createError_wf500 m
      | clientError m =>
          rw [lambda_of_clientError event db m h]; exact createError_wf500 _
      | otherError m =>
          rw [lambda_of_otherError event db m h]; exact createError_wf500 _

/-- Claim C3: on the fully valid sample event with the datastore
returning one record, the handler returns exactly the success envelope
echoing actionGroup, apiPath and httpMethod, with status 200 and the
query result serialized unmodified in the body; the serialized body is
the expected JSON text. -/
theorem end_to_end_success :
    lambda_handler eventC3 (DbBehavior.returns [("Items", Json.arr [recordC3])])
      = Json.obj [
          ("messageVersion", Json.str "1.0"),
          ("response", Json.obj [
            ("actionGroup", Json.str "ag1"),
            ("apiPath", Json.str "/salesorder/{SalesOrderID}"),
            ("httpMethod", Json.str "GET"),
            ("httpStatusCode", Json.num 200),
            ("responseBody", Json.obj [
              ("application/json", Json.obj [
                ("body", Json.str (Json.dumps (Json.obj [("Items", Json.arr [recordC3])])))])])])] ∧
    Json.dumps (Json.obj [("Items", Json.arr [recordC3])])
      = "\x7b\"Items\": [\x7b\"order_id\": \"SO123\", \"status\": \"shipped\"\x7d]\x7d" :=
  ⟨rfl, rfl⟩

/-- Claim C4: for every event from which at least one required field is
absent, the handler returns status 400 with an error body naming the
first missing field in the fixed check order apiPath, actionGroup,
httpMethod. -/
theorem missing_field_first_reported (event : PyDict) (db : DbBehavior) (f : String)
    (h : firstMissingField event = some f) :
    getStatus (lambda_handler event db) = some (Json.num 400) ∧
    getBody (lambda_handler event db)
      = some (Json.str (Json.dumps (Json.obj
          [("error", Json.str ("Missing required field: " ++ f))]))) := by
  have hb : handler_body event db
      = Except.error (PyError.valueError ("Missing required field: " ++ f)) := by
    unfold handler_body
    rw [validate_event_eq event, h]
  rw [lambda_of_valueError event db _ hb]
  exact ⟨createError_status _ _, createError_getBody _ _⟩

/-- Witness for C4: an event holding only actionGroup is first reported
as missing apiPath. -/
theorem missing_field_witness :
    firstMissingField eventMissing = some "apiPath" ∧
    (getStatus (lambda_handler eventMissing (DbBehavior.returns [])) = some (Json.num 400) ∧
     getBody (lambda_handler eventMissing (DbBehavior.returns []))
       = some (Json.str (Json.dumps (Json.obj
           [("error", Json.str ("Missing required field: " ++ "apiPath"))])))) :=
  ⟨rfl, missing_field_first_reported eventMissing (DbBehavior.returns []) "apiPath" rfl⟩

/-- Claim C5: once the three required fields are present, the handler
enters the parameter-extraction-and-query branch exactly when apiPath
equals the literal template string, and on any other apiPath value it
returns the invalid-path error with status 400. -/
theorem routing_exact_string_match (event : PyDict) (db : DbBehavior)
    (hv : firstMissingField event = none) :
    (dictGetD event "apiPath" Json.null = Json.str "/salesorder/{SalesOrderID}" →
       handler_body event db = salesorder_branch event db) ∧
    (dictGetD event "apiPath" Json.null ≠ Json.str "/salesorder/{SalesOrderID}" →
       lambda_handler event db
         = create_error_response
             ("Invalid API path: " ++ pyStr (dictGetD event "apiPath" Json.null)) 400 ∧
       getStatus (lambda_handler event db) = some (Json.num 400)) := by
  constructor
  · intro hp
    exact handler_body_routes event db hv hp
  · intro hp
    have hb := handler_body_bad_path event db hv hp
    rw [lambda_of_valueError event db _ hb]
    exact ⟨rfl, createError_status _ _⟩

/-- Witness for C5: the concrete path /salesorder/SO123 is rejected
with status 400 and the invalid-path message. -/
theorem routing_witness :
    firstMissingField eventBadPath = none ∧
    (lambda_handler eventBadPath (DbBehavior.returns [])
       = create_error_response "Invalid API path: /salesorder/SO123" 400 ∧
     getStatus (lambda_handler eventBadPath (DbBehavior.returns [])) = some (Json.num 400)) :=
  ⟨rfl, (routing_exact_string_match eventBadPath (DbBehavior.returns []) rfl).2
          (by simp [eventBadPath, dictGetD, dictGet])⟩

/-- Counterexample for C2: on a fully valid event whose query raises a
storage ClientError carrying the internal message XSECRETX, the handler
does return status 500, but the serialized error body does contain the
raw internal text, refuting the claim as stated. -/
theorem internal_error_text_exposed :
    getStatus (lambda_handler eventC3 (DbBehavior.queryClientError "XSECRETX"))
      = some (Json.num 500) ∧
    getBody (lambda_handler eventC3 (DbBehavior.queryClientError "XSECRETX"))
      = some (Json.str (Json.dumps (Json.obj
          [("error", Json.str "Database query error: XSECRETX")]))) ∧
    strContains (Json.dumps (Json.obj
        [("error", Json.str "Database query error: XSECRETX")])) "XSECRETX" = true :=
  ⟨rfl, rfl, rfl⟩

/-- Claim C2 as amended: for every valid event whose query raises a
storage ClientError, the handler returns status 500 and the serialized
error body is exactly the Database-query-error message wrapping the raw
internal error text, so the internal detail is exposed rather than
hidden. -/
theorem query_failure_maps_to_500_with_detail (event : PyDict) (sid m : String)
    (hv : firstMissingField event = none)
    (hp : dictGetD event "apiPath" Json.null = Json.str "/salesorder/{SalesOrderID}")
    (hsid : get_sales_id (dictGetD event "parameters" (Json.arr []))
              = Except.ok (some (Json.str sid)))
    (hne : sid.isEmpty = false) :
    lambda_handler event (DbBehavior.queryClientError m)
      = create_error_response ("Database query error: " ++ m) 500 ∧
    getStatus (lambda_handler event (DbBehavior.queryClientError m)) = some (Json.num 500) ∧
    getBody (lambda_handler event (DbBehavior.queryClientError m))
      = some (Json.str (Json.dumps (Json.obj
          [("error", Json.str ("Database query error: " ++ m))]))) := by
  have hb : handler_body event (DbBehavior.queryClientError m)
      = Except.error (PyError.logisticsQueryError ("Database query error: " ++ m)) := by
    rw [handler_body_routes event _ hv hp,
        salesorder_branch_truthy event _ (Json.str sid) hsid (str_truthy sid hne)]
    unfold after_extract
    rw [query_of_queryClientError sid hne m]
  rw [lambda_of_queryError _ _ _ hb]
  exact ⟨rfl, createError_status _ _, createError_getBody _ _⟩

/-- Witness for the amended C2. -/
theorem query_failure_500_witness :
    lambda_handler eventC3 (DbBehavior.queryClientError "XSECRETX")
      = create_error_response ("Database query error: " ++ "XSECRETX") 500 ∧
    getStatus (lambda_handler eventC3 (DbBehavior.queryClientError "XSECRETX"))
      = some (Json.num 500) ∧
    getBody (lambda_handler eventC3 (DbBehavior.queryClientError "XSECRETX"))
      = some (Json.str (Json.dumps (Json.obj
          [("error", Json.str ("Database query error: " ++ "XSECRETX"))]))) :=
  query_failure_maps_to_500_with_detail eventC3 "SO123" "XSECRETX" rfl rfl rfl rfl

/-- Claim C6: for every valid event on the supported path whose
parameters are a sequence of name-value mappings, the handler returns
status 400 when no entry is named SalesOrderID (exact, case-sensitive)
or when the first such entry has a falsy (empty or absent) value, and
otherwise passes the value of the first matching entry — later matches
are ignored — to the datastore query. -/
theorem salesorder_param_first_match (event : PyDict) (db : DbBehavior) (items : List PyDict)
    (hv : firstMissingField event = none)
    (hp : dictGetD event "apiPath" Json.null = Json.str "/salesorder/{SalesOrderID}")
    (hparams : dictGetD event "parameters" (Json.arr []) = Json.arr (items.map Json.obj)) :
    ((∀ kvs ∈ items, dictGet kvs "name" ≠ some (Json.str "SalesOrderID")) →
        lambda_handler event db
          = create_error_response "SalesOrderID parameter is missing or invalid" 400) ∧
    (∀ pre entry rest, items = pre ++ entry :: rest →
        (∀ kvs ∈ pre, dictGet kvs "name" ≠ some (Json.str "SalesOrderID")) →
        dictGet entry "name" = some (Json.str "SalesOrderID") →
        (((dictGetD entry "value" Json.null).truthy = false →
            lambda_handler event db
              = create_error_response "SalesOrderID parameter is missing or invalid" 400) ∧
         ((dictGetD entry "value" Json.null).truthy = true →
            handler_body event db
              = after_extract event (dictGetD entry "value" Json.null) db))) := by
  have hroute := handler_body_routes event db hv hp
  constructor
  · intro h
    have hsid : get_sales_id (dictGetD event "parameters" (Json.arr [])) = Except.ok none := by
      rw [hparams]
      exact iter_params_no_match items h
    have hb : handler_body event db
        = Except.error (PyError.valueError "SalesOrderID parameter is missing or invalid") := by
      rw [hroute]
      exact salesorder_branch_none event db hsid
    exact lambda_of_valueError event db _ hb
  · intro pre entry rest hsplit hpre hentry
    have hsid : get_sales_id (dictGetD event "parameters" (Json.arr []))
        = Except.ok (some (dictGetD entry "value" Json.null)) := by
      rw [hparams, hsplit]
      exact iter_params_first_match pre entry rest hpre hentry
    constructor
    · intro hf
      have hb : handler_body event db
          = Except.error (PyError.valueError "SalesOrderID parameter is missing or invalid") := by
        rw [hroute]
        exact salesorder_branch_falsy event db _ hsid hf
      exact lambda_of_valueError event db _ hb
    · intro ht
      rw [hroute]
      exact salesorder_branch_truthy event db _ hsid ht

/-- Witness for C6: with two SalesOrderID entries the value of the
first one, SO9, is the one handed to the query step. -/
theorem salesorder_param_witness :
    handler_body eventTwoParams (DbBehavior.returns [])
      = after_extract eventTwoParams (Json.str "SO9") (DbBehavior.returns []) :=
  ((salesorder_param_first_match eventTwoParams (DbBehavior.returns [])
      [entrySO, entryDecoy] rfl rfl rfl).2
    [] entrySO [entryDecoy] rfl (by simp) rfl).2 rfl

/-- Claim C7: for every valid event whose datastore query succeeds with
an empty Items collection, the handler returns status 200 and the body
serializes the query result with its empty Items collection — an empty
result is a success, not an error. -/
theorem empty_items_success (event : PyDict) (response : PyDict) (sid : String)
    (hv : firstMissingField event = none)
    (hp : dictGetD event "apiPath" Json.null = Json.str "/salesorder/{SalesOrderID}")
    (hsid : get_sales_id (dictGetD event "parameters" (Json.arr []))
              = Except.ok (some (Json.str sid)))
    (hne : sid.isEmpty = false)
    (hItems : dictGet response "Items" = some (Json.arr [])) :
    getStatus (lambda_handler event (DbBehavior.returns response)) = some (Json.num 200) ∧
    getBody (lambda_handler event (DbBehavior.returns response))
      = some (Json.str (Json.dumps (Json.obj response))) := by
  have hb : handler_body event (DbBehavior.returns response)
      = Except.ok (success_response event response) := by
    rw [handler_body_routes event _ hv hp,
        salesorder_branch_truthy event _ (Json.str sid) hsid (str_truthy sid hne)]
    unfold after_extract
    rw [query_of_returns_items sid hne response (by rw [hItems]; rfl)]
  rw [lambda_of_ok _ _ _ hb]
  exact ⟨success_status _ _, success_getBody _ _⟩

/-- Witness for C7: the valid sample event with a zero-item query
result yields status 200 and the serialized empty collection. -/
theorem empty_items_witness :
    getStatus (lambda_handler eventC3 (DbBehavior.returns [("Items", Json.arr [])]))
      = some (Json.num 200) ∧
    getBody (lambda_handler eventC3 (DbBehavior.returns [("Items", Json.arr [])]))
      = some (Json.str (Json.dumps (Json.obj [("Items", Json.arr [])]))) :=
  empty_items_success eventC3 [("Items", Json.arr [])] "SO123" rfl rfl rfl rfl rfl

/-- Claim C8: every error outcome — any returned envelope whose status
is 400 or 500 — carries the placeholder string unknown for actionGroup,
apiPath and httpMethod, even when the event fields were present, and
its body is the serialization of an object with the single key error. -/
theorem error_envelope_unknown_context (event : PyDict) (db : DbBehavior) (c : Int)
    (hs : getStatus (lambda_handler event db) = some (Json.num c))
    (hc : c = 400 ∨ c = 500) :
    getResponseField (lambda_handler event db) "actionGroup" = some (Json.str "unknown") ∧
    getResponseField (lambda_handler event db) "apiPath" = some (Json.str "unknown") ∧
    getResponseField (lambda_handler event db) "httpMethod" = some (Json.str "unknown") ∧
    ∃ m, getBody (lambda_handler event db)
          = some (Json.str (Json.dumps (Json.obj [("error", Json.str m)]))) := by
  cases h : handler_body event db with
  | ok r =>
      exfalso
      obtain ⟨body, rfl⟩ := handler_body_ok_shape event db r h
      rw [lambda_of_ok event db _ h, success_status] at hs
      injection hs with hs
      injection hs with hs
      rcases hc with rfl | rfl <;> omega
  | error e =>
      cases e with
      | valueError m =>
          rw [lambda_of_valueError event db m h]
          exact ⟨createError_actionGroup _ _, createError_apiPath _ _,
                 createError_httpMethod _ _, m, createError_getBody _ _⟩
      | logisticsQueryError m =>
          rw [lambda_of_queryError event db m h]
          exact ⟨createError_actionGroup _ _, createError_apiPath _ _,
                 createError_httpMethod _ _, m, createError_getBody _ _⟩
      | clientError m =>
          rw [lambda_of_clientError event db m h]
          exact ⟨createError_actionGroup _ _, createError_apiPath _ _,
                 createError_httpMethod _ _, "Internal server error", createError_getBody _ _⟩
      | otherError m =>
          rw [lambda_of_otherError event db m h]
          exact ⟨createError_actionGroup _ _, createError_apiPath _ _,
                 createError_httpMethod _ _, "Internal server error", createError_getBody _ _⟩

/-- Witness for C8: a 500 outcome of a fully valid event still reports
unknown for all three context fields. -/
theorem error_envelope_witness :
    getStatus (lambda_handler eventC3 (DbBehavior.queryClientError "E")) = some (Json.num 500) ∧
    (getResponseField (lambda_handler eventC3 (DbBehavior.queryClientError "E")) "actionGroup"
       = some (Json.str "unknown") ∧
     getResponseField (lambda_handler eventC3 (DbBehavior.queryClientError "E")) "apiPath"
       = some (Json.str "unknown") ∧
     getResponseField (lambda_handler eventC3 (DbBehavior.queryClientError "E")) "httpMethod"
       = some (Json.str "unknown") ∧
     ∃ m, getBody (lambda_handler eventC3 (DbBehavior.queryClientError "E"))
           = some (Json.str (Json.dumps (Json.obj [("error", Json.str m)])))) :=
  ⟨rfl, error_envelope_unknown_context eventC3 (DbBehavior.queryClientError "E") 500
          rfl (Or.inr rfl)⟩

/-- Claim C9: an event carrying the three required fields and the
supported path but no parameters key at all passes validation — the
absent parameters field is not a missing required field — and is then
rejected with the missing-SalesOrderID-parameter message at status 400,
because the missing sequence defaults to the empty list. -/
theorem absent_parameters_defaults_empty (event : PyDict) (db : DbBehavior)
    (h1 : dictGet event "apiPath" = some (Json.str "/salesorder/{SalesOrderID}"))
    (h2 : (dictGet event "actionGroup").isSome = true)
    (h3 : (dictGet event "httpMethod").isSome = true)
    (hnp : dictGet event "parameters" = none) :
    validate_event event = Except.ok () ∧
    lambda_handler event db
      = create_error_response "SalesOrderID parameter is missing or invalid" 400 := by
  have hv : firstMissingField event = none := by
    unfold firstMissingField
    simp [List.find?, h1, h2, h3]
  have hp : dictGetD event "apiPath" Json.null = Json.str "/salesorder/{SalesOrderID}" := by
    unfold dictGetD
    rw [h1]
    rfl
  have hsid : get_sales_id (dictGetD event "parameters" (Json.arr [])) = Except.ok none := by
    unfold dictGetD
    rw [hnp]
    rfl
  constructor
  · rw [validate_event_eq event, hv]
  · have hb : handler_body event db
        = Except.error (PyError.valueError "SalesOrderID parameter is missing or invalid") := by
      rw [handler_body_routes event db hv hp]
      exact salesorder_branch_none event db hsid
    exact lambda_of_valueError event db _ hb

/-- Witness for C9. -/
theorem absent_parameters_witness :
    validate_event eventNoParams = Except.ok () ∧
    lambda_handler eventNoParams (DbBehavior.returns [])
      = create_error_response "SalesOrderID parameter is missing or invalid" 400 :=
  absent_parameters_defaults_empty eventNoParams (DbBehavior.returns []) rfl rfl rfl rfl

/-- Counterexample for C10: on a fully valid event whose query call
returns a dict without the Items key, the status is 500 as claimed, but
the error body carries the message rewrapped by the generic exception
clause of query_logistic_db — Failed to query logistics data: Invalid
response format from database — which differs from the body the claim
states. -/
theorem items_missing_message_wrapped :
    getStatus (lambda_handler eventC3 (DbBehavior.returns [("Foo", Json.null)]))
      = some (Json.num 500) ∧
    getBody (lambda_handler eventC3 (DbBehavior.returns [("Foo", Json.null)]))
      = some (Json.str (Json.dumps (Json.obj [("error",
          Json.str "Failed to query logistics data: Invalid response format from database")]))) ∧
    Json.dumps (Json.obj [("error",
        Json.str "Failed to query logistics data: Invalid response format from database")])
      ≠ Json.dumps (Json.obj [("error", Json.str "Invalid response format from database")]) :=
  ⟨rfl, rfl, by decide⟩

/-- Claim C10 as amended: for every valid event whose query call
returns a result lacking the Items key, the handler returns status 500,
and the error body is the serialization of the rewrapped message
Failed to query logistics data: Invalid response format from database —
the malformed storage response is classified as a datastore-kind error,
not a success and not a 400. -/
theorem items_missing_maps_to_500_wrapped (event : PyDict) (response : PyDict) (sid : String)
    (hv : firstMissingField event = none)
    (hp : dictGetD event "apiPath" Json.null = Json.str "/salesorder/{SalesOrderID}")
    (hsid : get_sales_id (dictGetD event "parameters" (Json.arr []))
              = Except.ok (some (Json.str sid)))
    (hne : sid.isEmpty = false)
    (hnoItems : dictGet response "Items" = none) :
    lambda_handler event (DbBehavior.returns response)
      = create_error_response
          "Failed to query logistics data: Invalid response format from database" 500 ∧
    getStatus (lambda_handler event (DbBehavior.returns response)) = some (Json.num 500) := by
  have hb : handler_body event (DbBehavior.returns response)
      = Except.error (PyError.logisticsQueryError
          "Failed to query logistics data: Invalid response format from database") := by
    rw [handler_body_routes event _ hv hp,
        salesorder_branch_truthy event _ (Json.str sid) hsid (str_truthy sid hne)]
    unfold after_extract
    rw [query_of_returns_no_items sid hne response hnoItems]
  rw [lambda_of_queryError _ _ _ hb]
  exact ⟨rfl, createError_status _ _⟩

/-- Witness for the amended C10. -/
theorem items_missing_witness :
    lambda_handler eventC3 (DbBehavior.returns [("Foo", Json.null)])
      = create_error_response
          "Failed to query logistics data: Invalid response format from database" 500 ∧
    getStatus (lambda_handler eventC3 (DbBehavior.returns [("Foo", Json.null)]))
      = some (Json.num 500) :=
  items_missing_maps_to_500_wrapped eventC3 [("Foo", Json.null)] "SO123" rfl rfl rfl rfl rfl
